import Mathlib

/-!
Shallow embedding of the Farmactiva back-office core engines:
the price-resolution engine (`app/routers/admin_precios.py`) and the
order state engine (`app/routers/admin_pedidos.py`), together with the
order-creation initial-status logic and the price-publication routine.

Machine reals (Python floats) are modelled as rationals; Python's
builtin `round` (round-half-to-even) is modelled explicitly.
-/

namespace Farmactiva

/-- Python's builtin `round` on a rational: round to the nearest integer,
ties going to the even integer (banker's rounding). -/
def pyRound (q : ℚ) : ℤ :=
  if q - ⌊q⌋ < 1/2 then ⌊q⌋
  else if 1/2 < q - ⌊q⌋ then ⌊q⌋ + 1
  else if ⌊q⌋ % 2 = 0 then ⌊q⌋ else ⌊q⌋ + 1

theorem pyRound_intCast (n : ℤ) : pyRound (n : ℚ) = n := by
  simp [pyRound]

theorem pyRound_nonneg {q : ℚ} (h : 0 ≤ q) : 0 ≤ pyRound q := by
  have hf : (0:ℤ) ≤ ⌊q⌋ := Int.floor_nonneg.mpr h
  unfold pyRound
  split_ifs <;> omega

/-- `_aplicar_redondeo(codigo, precio)` from `app/routers/admin_precios.py`:
non-positive input yields 0; `PSICO_990` floors to the thousand below and adds
990; `REDONDEO_100` rounds to the nearest hundred; `EXACTO` and any other code
round to the nearest integer. -/
def _aplicar_redondeo (codigo : String) (precio : ℚ) : ℤ :=
  if precio ≤ 0 then 0
  else if codigo = "PSICO_990" then ⌊precio / 1000⌋ * 1000 + 990
  else if codigo = "REDONDEO_100" then pyRound (precio / 100) * 100
  else if codigo = "EXACTO" then pyRound precio
  else pyRound precio

theorem _aplicar_redondeo_nonneg (codigo : String) (precio : ℚ) :
    0 ≤ _aplicar_redondeo codigo precio := by
  unfold _aplicar_redondeo
  split_ifs with h1 h2 h3 h4
  · exact le_refl 0
  · have hp : (0:ℚ) ≤ precio := (not_le.mp h1).le
    have : (0:ℤ) ≤ ⌊precio / 1000⌋ :=
      Int.floor_nonneg.mpr (div_nonneg hp (by norm_num))
    omega
  · have hp : (0:ℚ) ≤ precio := (not_le.mp h1).le
    have : (0:ℤ) ≤ pyRound (precio / 100) :=
      pyRound_nonneg (div_nonneg hp (by norm_num))
    omega
  · exact pyRound_nonneg (by linarith [not_le.mp h1])
  · exact pyRound_nonneg (by linarith [not_le.mp h1])

theorem _aplicar_redondeo_psico (precio : ℚ) :
    _aplicar_redondeo "PSICO_990" precio =
      if precio ≤ 0 then 0 else ⌊precio / 1000⌋ * 1000 + 990 := by
  unfold _aplicar_redondeo
  split_ifs <;> simp_all

theorem _aplicar_redondeo_r100 (precio : ℚ) :
    _aplicar_redondeo "REDONDEO_100" precio =
      if precio ≤ 0 then 0 else pyRound (precio / 100) * 100 := by
  unfold _aplicar_redondeo
  split_ifs <;> simp_all

theorem _aplicar_redondeo_of_other {codigo : String} (h1 : codigo ≠ "PSICO_990")
    (h2 : codigo ≠ "REDONDEO_100") (precio : ℚ) :
    _aplicar_redondeo codigo precio = if precio ≤ 0 then 0 else pyRound precio := by
  unfold _aplicar_redondeo
  split_ifs <;> first | rfl | tauto

theorem floor_psico_fixed {k : ℤ} (hk : 0 ≤ k) :
    ⌊((k * 1000 + 990 : ℤ) : ℚ) / 1000⌋ = k := by
  rw [Int.floor_eq_iff]
  constructor
  · push_cast
    rw [le_div_iff (by norm_num)]
    linarith
  · push_cast
    rw [div_lt_iff (by norm_num)]
    linarith

/-- C7: for every rounding strategy code (`PSICO_990`, `REDONDEO_100`, `EXACTO`
and any unrecognized code) and every input, applying `_aplicar_redondeo` twice
yields the same value as applying it once: every strategy is idempotent. -/
theorem aplicar_redondeo_idempotent (codigo : String) (x : ℚ) :
    _aplicar_redondeo codigo ((_aplicar_redondeo codigo x : ℤ) : ℚ) =
      _aplicar_redondeo codigo x := by
  by_cases h0 : x ≤ 0
  · simp [_aplicar_redondeo, h0]
  · have hx : 0 < x := not_le.mp h0
    by_cases hP : codigo = "PSICO_990"
    · subst hP
      rw [_aplicar_redondeo_psico x, if_neg h0]
      have hk : (0:ℤ) ≤ ⌊x / 1000⌋ :=
        Int.floor_nonneg.mpr (div_nonneg hx.le (by norm_num))
      set k := ⌊x / 1000⌋ with hkdef
      rw [_aplicar_redondeo_psico]
      have hpos : ¬ (((k * 1000 + 990 : ℤ) : ℚ) ≤ 0) := by
        push_cast
        push_neg
        have : (0:ℚ) ≤ (k:ℚ) := by exact_mod_cast hk
        linarith
      rw [if_neg hpos, floor_psico_fixed hk]
    · by_cases hR : codigo = "REDONDEO_100"
      · subst hR
        rw [_aplicar_redondeo_r100 x, if_neg h0]
        have hm : (0:ℤ) ≤ pyRound (x / 100) :=
          pyRound_nonneg (div_nonneg hx.le (by norm_num))
        set m := pyRound (x / 100) with hmdef
        rw [_aplicar_redondeo_r100]
        rcases hm.eq_or_lt with hz | hpos
        · rw [← hz]
          norm_num
        · have hq : ¬ (((m * 100 : ℤ) : ℚ) ≤ 0) := by
            push_cast
            push_neg
            have : (0:ℚ) < (m:ℚ) := by exact_mod_cast hpos
            linarith
          rw [if_neg hq]
          have hdiv : ((m * 100 : ℤ) : ℚ) / 100 = (m : ℚ) := by
            push_cast
            ring
          rw [hdiv, pyRound_intCast]
      · rw [_aplicar_redondeo_of_other hP hR x, if_neg h0,
            _aplicar_redondeo_of_other hP hR]
        have hm : (0:ℤ) ≤ pyRound x := pyRound_nonneg hx.le
        rcases hm.eq_or_lt with hz | hpos
        · rw [← hz]
          norm_num
        · have hq : ¬ ((pyRound x : ℚ) ≤ 0) := by
            push_neg
            exact_mod_cast hpos
          rw [if_neg hq, pyRound_intCast]

/-! ### Generic helpers: Python string upper, SQL ORDER BY, Python float() -/

/-- Python's `str.upper()` (modelled per character, which agrees with it on the
ASCII status codes and formula kinds this system uses). -/
def pyUpper (s : String) : String := String.mk (s.data.map Char.toUpper)

/-- Insert into a list sorted by the boolean order `le`. -/
def insertLE (le : α → α → Bool) (a : α) : List α → List α
  | [] => [a]
  | b :: bs => if le a b then a :: b :: bs else b :: insertLE le a bs

/-- Sort by the boolean order `le` (SQL `ORDER BY` over a total key). -/
def sortLE (le : α → α → Bool) : List α → List α
  | [] => []
  | a :: as => insertLE le a (sortLE le as)

/-- Digit-string value; `none` when a non-digit occurs (the empty list gives
`some 0`, callers reject it where Python would). -/
def digitsToNat? (cs : List Char) : Option Nat :=
  cs.foldl
    (fun acc c =>
      acc.bind (fun n => if c.isDigit then some (n * 10 + (c.toNat - 48)) else none))
    (some 0)

/-- Split a character list at its first `'.'`. -/
def splitFirstDot : List Char → List Char × Option (List Char)
  | [] => ([], none)
  | c :: cs =>
    if c = '.' then ([], some cs)
    else
      let r := splitFirstDot cs
      (c :: r.1, r.2)

/-- Python's `float(s)` on the plain decimal literals this system stores in its
settings table (optional sign, digits, optional fraction); other inputs give
`none`, modelling the `ValueError` that the callers catch. -/
def parseDecimal (s : String) : Option ℚ :=
  let cs := ((s.data.dropWhile Char.isWhitespace).reverse.dropWhile
    Char.isWhitespace).reverse
  let signAndRest : Bool × List Char :=
    match cs with
    | '-' :: r => (true, r)
    | '+' :: r => (false, r)
    | r => (false, r)
  let neg := signAndRest.1
  let core : Option ℚ :=
    match splitFirstDot signAndRest.2 with
    | (a, none) =>
      if a = [] then none
      else (digitsToNat? a).map (fun n => (n : ℚ))
    | (a, some b) =>
      if b.contains '.' then none
      else if a = [] && b = [] then none
      else
        match digitsToNat? a, digitsToNat? b with
        | some na, some nb => some ((na : ℚ) + (nb : ℚ) / (10 ^ b.length : ℚ))
        | _, _ => none
  core.map (fun q => if neg then -q else q)

/-! ### Data model of the price tables (`app/routers/admin_precios.py` SQL) -/

/-- Cost-relevant subset of `public.productos` (`SQL_PRODUCTO_BASE` plus the
three cost columns probed by `_get_costo_base`). -/
structure Producto where
  id_producto : Nat
  id_tipo_medicamento : Option Nat
  categoria_id : Option Nat
  subcategoria_id : Option Nat
  costo_neto : Option ℚ
  costo_promedio : Option ℚ
  costo_ultimo : Option ℚ
  deriving Repr, DecidableEq

/-- A row of `public.listas_precios`. -/
structure ListaPrecios where
  id_lista : Nat
  slug : String
  nombre : String
  modo : String
  deriving Repr, DecidableEq

/-- A row of `public.politicas_precio` (`SQL_POLITICAS_ACTIVAS` columns). -/
structure Politica where
  id_politica : Nat
  nombre : String
  id_lista : Nat
  canal : String
  prioridad : Int
  redondeo_estrategia : Option String
  activo : Bool
  deriving Repr, DecidableEq

/-- A row of `public.reglas_precio` (`SQL_REGLAS_BY_POL` columns). -/
structure Regla where
  id_regla : Nat
  id_politica : Nat
  tipo_formula : Option String
  markup_pct : Option ℚ
  descuento_pct : Option ℚ
  precio_fijo_clp : Option ℚ
  margen_min_pct : Option ℚ
  tope_pct : Option ℚ
  considera_iva : Bool
  rango_costo_min : Option ℚ
  rango_costo_max : Option ℚ
  prioridad : Int
  activo : Bool
  id_tipo_medicamento : Option Nat
  deriving Repr, DecidableEq

/-- A row of `public.precios`.  Timestamps are abstract ticks (`Nat`); a `none`
`vigente_hasta` means the row is currently in force. -/
structure Precio where
  id_precio : Nat
  id_producto : Nat
  id_lista : Nat
  precio_bruto : ℚ
  iva_tasa : ℚ
  fuente : String
  creado_por : String
  vigente_desde : Nat
  vigente_hasta : Option Nat
  deriving Repr, DecidableEq

/-- The relational store read by the price-resolution engine. -/
structure PreciosDB where
  productos : List Producto
  listas : List ListaPrecios
  politicas : List Politica
  reglas : List Regla
  precios : List Precio
  pts_margenes : List (Nat × ℚ)
  pts_margenes_cat : List (Nat × ℚ)
  app_parametros : List (String × String)
  deriving Repr

/-! ### Read helpers -/

/-- `_get_param(db, clave, default)`: the settings-table lookup. -/
def _get_param (db : PreciosDB) (clave : String) (default : Option String) :
    Option String :=
  match db.app_parametros.find? (fun kv => kv.1 == clave) with
  | some kv => some kv.2
  | none => default

/-- Modelled from the spec: the price-list metadata reader
(`get_price_list(id_or_slug)`), used by `resolver_precio`'s PTS fallback as
`_get_lista_id(db, slug)`; that helper is referenced in
`app/routers/admin_precios.py` but its definition is not among the provided
sources.  It resolves a slug to the list's id. -/
def _get_lista_id (db : PreciosDB) (slug : String) : Option Nat :=
  (db.listas.find? (fun l => l.slug == slug)).map (·.id_lista)

/-- `_get_producto_base(db, id_producto)` (`SQL_PRODUCTO_BASE`). -/
def _get_producto_base (db : PreciosDB) (id_producto : Nat) : Option Producto :=
  db.productos.find? (fun p => p.id_producto == id_producto)

/-- `_get_costo_base(db, id_producto)`: first non-null of net, average and last
cost, in that order (all three cost columns are modelled as present). -/
def _get_costo_base (db : PreciosDB) (id_producto : Nat) : Option ℚ :=
  match _get_producto_base db id_producto with
  | none => none
  | some p => (p.costo_neto.orElse fun _ => p.costo_promedio).orElse fun _ => p.costo_ultimo

/-- `SQL_PVP_REF_ACTUAL`: the in-force gross price on the `pvp` list for a
product, taking the most recent `vigente_desde` when several rows qualify. -/
def pvpRefActual (db : PreciosDB) (id_producto : Nat) : Option ℚ :=
  let esPvp : Nat → Bool := fun idl =>
    (db.listas.find? (fun l => l.id_lista == idl)).elim false (fun l => l.slug == "pvp")
  let rows := db.precios.filter
    (fun pr => pr.id_producto == id_producto && esPvp pr.id_lista &&
      pr.vigente_hasta == none)
  ((sortLE (fun a b => b.vigente_desde ≤ a.vigente_desde) rows).head?).map
    (·.precio_bruto)

/-- `_get_pts_margin_for_producto`: category override, then medication-type
override, then the `pts_margen_default` parameter (textual default `"0.08"`).
A Python falsy id (absent or 0) skips its step. -/
def _get_pts_margin_for_producto (db : PreciosDB)
    (id_tipo_medicamento categoria_id _subcategoria_id : Option Nat) : Option ℚ :=
  let porDefecto : Option ℚ :=
    (_get_param db "pts_margen_default" (some "0.08")).bind parseDecimal
  let porTipo : Option ℚ :=
    match id_tipo_medicamento with
    | some t =>
      if t ≠ 0 then
        match (db.pts_margenes.find? (fun kv => kv.1 == t)).map (·.2) with
        | some m => some m
        | none => porDefecto
      else porDefecto
    | none => porDefecto
  match categoria_id with
  | some c =>
    if c ≠ 0 then
      match (db.pts_margenes_cat.find? (fun kv => kv.1 == c)).map (·.2) with
      | some m => some m
      | none => porTipo
    else porTipo
  | none => porTipo

/-! ### `resolver_precio` -/

/-- The per-rule arithmetic of `resolver_precio`: candidate by formula kind,
then the min-margin floor and the max-markup-over-reference cap, then the
policy's rounding strategy (a missing guarded candidate is rounded as 0). -/
structure ReglaEval where
  bruto_calc : Option ℚ
  bruto_guard : Option ℚ
  bruto_final : ℤ
  deriving Repr, DecidableEq

/-- Candidate computation of one rule (`resolver_precio`, "aplicar" block). -/
def calcRegla (rg : Regla) (costo pvp_ref : Option ℚ) : Option ℚ :=
  let tf := pyUpper (rg.tipo_formula.getD "")
  if tf = "COSTO_MAS_MARKUP" then
    costo.map (fun c => c * (1 + (rg.markup_pct.getD 0) / 100))
  else if tf = "DESCUENTO_SOBRE_PVP" then
    pvp_ref.map (fun pv => pv * (1 - (rg.descuento_pct.getD 0) / 100))
  else if tf = "PRECIO_FIJO" then
    rg.precio_fijo_clp
  else none

/-- Guardrails of one rule (`resolver_precio`, "guardarrailes" block). -/
def guardRegla (rg : Regla) (costo pvp_ref : Option ℚ) (bruto_calc : Option ℚ) :
    Option ℚ :=
  match bruto_calc with
  | none => none
  | some b0 =>
    let b1 :=
      match rg.margen_min_pct, costo with
      | some mm, some c =>
        let min_precio := c * (1 + mm / 100)
        if b0 < min_precio then min_precio else b0
      | _, _ => b0
    let b2 :=
      match rg.tope_pct, pvp_ref with
      | some tp, some pv =>
        let max_precio := pv * (1 + tp / 100)
        if max_precio < b1 then max_precio else b1
      | _, _ => b1
    some b2

/-- Full evaluation of one rule under a policy's rounding strategy. -/
def evalRegla (rg : Regla) (costo pvp_ref : Option ℚ) (pol_redondeo : String) :
    ReglaEval :=
  let bc := calcRegla rg costo pvp_ref
  let bg := guardRegla rg costo pvp_ref bc
  { bruto_calc := bc, bruto_guard := bg,
    bruto_final := _aplicar_redondeo pol_redondeo (bg.getD 0) }

/-- Medication-type filter of a rule: a rule with a type filter is skipped
unless the product's type equals it. -/
def reglaMatchesTipo (rg : Regla) (tipo_id : Option Nat) : Bool :=
  match rg.id_tipo_medicamento with
  | none => true
  | some rt =>
    match tipo_id with
    | none => false
    | some t => t == rt

/-- Cost-range filter of a rule; with no known cost base the range check is
skipped entirely. -/
def reglaMatchesRango (rg : Regla) (costo : Option ℚ) : Bool :=
  match costo with
  | none => true
  | some v =>
    (match rg.rango_costo_min with
     | some rmin => !(v < rmin : Bool)
     | none => true) &&
    (match rg.rango_costo_max with
     | some rmax => !(rmax < v : Bool)
     | none => true)

/-- The inner rule loop of `resolver_precio`: first rule that passes both
filters and whose rounded price is positive wins. -/
def resolverReglas (pol_redondeo : String) (costo : Option ℚ) (tipo_id : Option Nat)
    (pvp_ref : Option ℚ) : List Regla → Option (Regla × ℤ)
  | [] => none
  | rg :: rest =>
    if !reglaMatchesTipo rg tipo_id then
      resolverReglas pol_redondeo costo tipo_id pvp_ref rest
    else if !reglaMatchesRango rg costo then
      resolverReglas pol_redondeo costo tipo_id pvp_ref rest
    else
      let ev := evalRegla rg costo pvp_ref pol_redondeo
      if 0 < ev.bruto_final then some (rg, ev.bruto_final)
      else resolverReglas pol_redondeo costo tipo_id pvp_ref rest

/-- `pol["redondeo_estrategia"] or "EXACTO"`: Python `or` replaces both a null
and an empty string by the default. -/
def redondeoDePolitica (pol : Politica) : String :=
  let r0 := pol.redondeo_estrategia.getD ""
  if r0 = "" then "EXACTO" else r0

/-- Active rules of one policy, ordered by priority then rule id
(`SQL_REGLAS_BY_POL`). -/
def reglasDePolitica (db : PreciosDB) (id_politica : Nat) : List Regla :=
  sortLE
    (fun a b => a.prioridad < b.prioridad ||
      (a.prioridad == b.prioridad && a.id_regla ≤ b.id_regla))
    (db.reglas.filter (fun rg => rg.id_politica == id_politica && rg.activo))

/-- The outer policy loop of `resolver_precio`: first policy whose rule loop
yields a winner short-circuits the evaluation. -/
def resolverPoliticas (db : PreciosDB) (costo : Option ℚ) (tipo_id : Option Nat)
    (pvp_ref : Option ℚ) : List Politica → Option (Politica × String × Regla × ℤ)
  | [] => none
  | pol :: rest =>
    let pol_redondeo := redondeoDePolitica pol
    match resolverReglas pol_redondeo costo tipo_id pvp_ref
        (reglasDePolitica db pol.id_politica) with
    | some (rg, bf) => some (pol, pol_redondeo, rg, bf)
    | none => resolverPoliticas db costo tipo_id pvp_ref rest

/-- Active policies matching the requested channel or the wildcard `ANY`,
ordered by priority then policy id (`SQL_POLITICAS_ACTIVAS`). -/
def politicasActivas (db : PreciosDB) (canal : String) : List Politica :=
  sortLE
    (fun a b => a.prioridad < b.prioridad ||
      (a.prioridad == b.prioridad && a.id_politica ≤ b.id_politica))
    (db.politicas.filter (fun p => p.activo && (p.canal == canal || p.canal == "ANY")))

/-- Reference to the policy a resolution came from (`"politica"` key of the
returned dict); the PTS configuration fallback carries a null id. -/
structure PoliticaRef where
  id : Option Nat
  nombre : String
  deriving Repr, DecidableEq

/-- Reference to the rule a resolution came from (`"regla"` key). -/
structure ReglaRef where
  id : Option Nat
  tipo : String
  deriving Repr, DecidableEq

/-- Return value of `resolver_precio` (the `pasos` diagnostic string trail is
logging only and is not modelled). -/
structure Resolucion where
  ok : Bool
  error : Option String
  precio_bruto : Option ℤ
  id_lista : Option Nat
  politica : Option PoliticaRef
  regla : Option ReglaRef
  costo_base : Option ℚ
  pvp_ref : Option ℚ
  redondeo : Option String
  deriving Repr, DecidableEq

/-- `resolver_precio(db, id_producto=…, id_cliente=…, canal=…)` from
`app/routers/admin_precios.py` (the unused `id_cliente` argument is dropped):
gather cost base, product classification and — only on the `ANY`/`ERP`
channels — the in-force reference retail price; try the ranked policies and
rules; then the PTS configuration fallback; otherwise fail. -/
def resolver_precio (db : PreciosDB) (id_producto : Nat) (canal : String) :
    Resolucion :=
  let costo := _get_costo_base db id_producto
  let base := _get_producto_base db id_producto
  let tipo_id := base.bind (·.id_tipo_medicamento)
  let categoria_id := base.bind (·.categoria_id)
  let subcategoria_id := base.bind (·.subcategoria_id)
  let pvp_ref :=
    if canal = "ANY" ∨ canal = "ERP" then pvpRefActual db id_producto else none
  let fallo : Resolucion :=
    { ok := false, error := some "No se encontró regla aplicable o falta costo_base.",
      precio_bruto := none, id_lista := none, politica := none, regla := none,
      costo_base := costo, pvp_ref := pvp_ref, redondeo := none }
  match resolverPoliticas db costo tipo_id pvp_ref (politicasActivas db canal) with
  | some (pol, pol_redondeo, rg, bruto_final) =>
    { ok := true, error := none, precio_bruto := some bruto_final,
      id_lista := some pol.id_lista,
      politica := some ⟨some pol.id_politica, pol.nombre⟩,
      regla := some ⟨some rg.id_regla, pyUpper (rg.tipo_formula.getD "")⟩,
      costo_base := costo, pvp_ref := pvp_ref, redondeo := some pol_redondeo }
  | none =>
    if canal = "PTS" then
      match costo with
      | some c =>
        match _get_pts_margin_for_producto db tipo_id categoria_id subcategoria_id with
        | some margen =>
          let bruto := c * (1 + margen)
          let r0 := (_get_param db "pts_redondeo" (some "EXACTO")).getD ""
          let redondeo := pyUpper (if r0 = "" then "EXACTO" else r0)
          let bruto_final := _aplicar_redondeo redondeo bruto
          { ok := true, error := none, precio_bruto := some bruto_final,
            id_lista := _get_lista_id db "pts",
            politica := some ⟨none, "PTS (fallback config)"⟩,
            regla := some ⟨none, "COSTO_MAS_MARKUP"⟩,
            costo_base := costo, pvp_ref := pvp_ref, redondeo := some redondeo }
        | none => fallo
      | none => fallo
    else fallo

/-! ### General lemmas about the rule/policy loops -/

theorem _aplicar_redondeo_zero (codigo : String) : _aplicar_redondeo codigo 0 = 0 := by
  unfold _aplicar_redondeo
  simp

theorem resolverReglas_pos {red : String} {costo : Option ℚ} {tipo_id : Option Nat}
    {pvp_ref : Option ℚ} {l : List Regla} {rg : Regla} {bf : ℤ}
    (h : resolverReglas red costo tipo_id pvp_ref l = some (rg, bf)) : 0 < bf := by
  induction l with
  | nil => simp [resolverReglas] at h
  | cons rg0 rest ih =>
    unfold resolverReglas at h
    dsimp only at h
    split_ifs at h with h1 h2 h3
    · exact ih h
    · exact ih h
    · cases h
      exact h3
    · exact ih h

theorem resolverReglas_winner_no_pvp {red : String} {costo : Option ℚ}
    {tipo_id : Option Nat} {l : List Regla} {rg : Regla} {bf : ℤ}
    (h : resolverReglas red costo tipo_id none l = some (rg, bf)) :
    pyUpper (rg.tipo_formula.getD "") ≠ "DESCUENTO_SOBRE_PVP" := by
  induction l with
  | nil => simp [resolverReglas] at h
  | cons rg0 rest ih =>
    unfold resolverReglas at h
    dsimp only at h
    split_ifs at h with h1 h2 h3
    · exact ih h
    · exact ih h
    · cases h
      intro htipo
      have hcalc : calcRegla rg costo none = none := by
        unfold calcRegla
        dsimp only
        rw [htipo, if_neg (by decide), if_pos rfl]
        rfl
      have hguard : guardRegla rg costo none (calcRegla rg costo none) = none := by
        rw [hcalc]
        rfl
      have hfinal : (evalRegla rg costo none red).bruto_final = 0 := by
        unfold evalRegla
        dsimp only
        rw [hguard]
        exact _aplicar_redondeo_zero red
      rw [hfinal] at h3
      exact lt_irrefl 0 h3
    · exact ih h

theorem resolverPoliticas_inner {db : PreciosDB} {costo : Option ℚ}
    {tipo_id : Option Nat} {pvp_ref : Option ℚ} {l : List Politica} {pol : Politica}
    {red : String} {rg : Regla} {bf : ℤ}
    (h : resolverPoliticas db costo tipo_id pvp_ref l = some (pol, red, rg, bf)) :
    resolverReglas red costo tipo_id pvp_ref (reglasDePolitica db pol.id_politica) =
      some (rg, bf) := by
  induction l with
  | nil => simp [resolverPoliticas] at h
  | cons pol0 rest ih =>
    unfold resolverPoliticas at h
    dsimp only at h
    revert h
    cases hM : resolverReglas (redondeoDePolitica pol0) costo tipo_id pvp_ref
        (reglasDePolitica db pol0.id_politica) with
    | none =>
      intro h
      exact ih h
    | some pr =>
      obtain ⟨rg1, bf1⟩ := pr
      intro h
      simp only [Option.some_inj, Prod.mk.injEq] at h
      obtain ⟨e1, e2, e3, e4⟩ := h
      subst e1 e2 e3 e4
      exact hM

/-! ### Concrete price-resolution scenarios -/

/-- A 10 % discount-off-reference rule with no guardrails. -/
def reglaDescuento10 : Regla :=
  { id_regla := 100, id_politica := 10, tipo_formula := some "DESCUENTO_SOBRE_PVP",
    markup_pct := none, descuento_pct := some 10, precio_fijo_clp := none,
    margen_min_pct := none, tope_pct := none, considera_iva := false,
    rango_costo_min := none, rango_costo_max := none, prioridad := 1,
    activo := true, id_tipo_medicamento := none }

/-- Store for the discount scenario: an in-force `pvp` reference price of 9990
and one active `ANY` policy with `PSICO_990` rounding holding the 10 % rule. -/
def dbDescuento : PreciosDB :=
  { productos := [⟨1, none, none, none, none, none, none⟩],
    listas := [⟨1, "pvp", "PVP", "MANUAL"⟩],
    politicas := [⟨10, "Promo", 2, "ANY", 1, some "PSICO_990", true⟩],
    reglas := [reglaDescuento10],
    precios := [⟨1, 1, 1, 9990, 19, "admin", "admin", 0, none⟩],
    pts_margenes := [], pts_margenes_cat := [], app_parametros := [] }

/-- Store for the PTS fallback-to-zero scenario: cost base 10, no policies, and
a `pts_redondeo` of `REDONDEO_100` (margin defaults to the textual `"0.08"`). -/
def dbFallbackCero : PreciosDB :=
  { productos := [⟨2, none, none, none, some 10, none, none⟩],
    listas := [⟨3, "pts", "PTS", "AUTO"⟩],
    politicas := [], reglas := [], precios := [],
    pts_margenes := [], pts_margenes_cat := [],
    app_parametros := [("pts_redondeo", "REDONDEO_100")] }

/-- Store for a plain cost-plus-markup resolution (cost 1000, markup 20 %,
`EXACTO` rounding). -/
def reglaMarkup20 : Regla :=
  { id_regla := 7, id_politica := 20, tipo_formula := some "COSTO_MAS_MARKUP",
    markup_pct := some 20, descuento_pct := none, precio_fijo_clp := none,
    margen_min_pct := none, tope_pct := none, considera_iva := false,
    rango_costo_min := none, rango_costo_max := none, prioridad := 1,
    activo := true, id_tipo_medicamento := none }

def dbMarkup : PreciosDB :=
  { productos := [⟨3, none, none, none, some 1000, none, none⟩],
    listas := [],
    politicas := [⟨20, "Base", 4, "ANY", 1, some "EXACTO", true⟩],
    reglas := [reglaMarkup20],
    precios := [], pts_margenes := [], pts_margenes_cat := [],
    app_parametros := [] }

/-- C8: with an in-force reference retail price of 9990, a matching
`DESCUENTO_SOBRE_PVP` rule with a 10 % discount under a `PSICO_990` policy and
no binding guardrails, `resolver_precio` computes the candidate 8991 and
returns the rounded price 8990. -/
theorem resolver_descuento_psico_scenario :
    (resolver_precio dbDescuento 1 "ANY").ok = true ∧
    (resolver_precio dbDescuento 1 "ANY").pvp_ref = some 9990 ∧
    calcRegla reglaDescuento10 none (some 9990) = some 8991 ∧
    (evalRegla reglaDescuento10 none (some 9990) "PSICO_990").bruto_final = 8990 ∧
    (resolver_precio dbDescuento 1 "ANY").precio_bruto = some 8990 := by
  have hU : pyUpper "DESCUENTO_SOBRE_PVP" = "DESCUENTO_SOBRE_PVP" := by decide
  refine ⟨?_, ?_, ?_, ?_, ?_⟩ <;>
    norm_num +decide [resolver_precio, dbDescuento, reglaDescuento10, _get_costo_base,
      _get_producto_base, pvpRefActual, politicasActivas, sortLE, insertLE,
      resolverPoliticas, reglasDePolitica, resolverReglas, redondeoDePolitica,
      reglaMatchesTipo, reglaMatchesRango, evalRegla, calcRegla, guardRegla,
      _aplicar_redondeo, hU, _get_param, List.find?, List.filter, Int.floor_eq_iff]

theorem data_008 : ("0.08").data = ['0', '.', '0', '8'] := by decide

theorem parse_008 : parseDecimal "0.08" = some (2/25) := by
  have h8 : ('8').toNat = 56 := by decide
  norm_num +decide [parseDecimal, data_008, splitFirstDot, digitsToNat?, List.foldl,
    List.dropWhile, List.reverse, List.reverseAux, h8]

theorem margen_fallback_cero :
    _get_pts_margin_for_producto dbFallbackCero none none none = some (2/25) := by
  have hne : ("pts_redondeo" == "pts_margen_default") = false := by decide
  norm_num +decide [_get_pts_margin_for_producto, _get_param, dbFallbackCero,
    List.find?, parse_008, hne]

/-- Evaluation of the PTS fallback on `dbFallbackCero`: margin 0.08 over cost
10 gives 10.8, which `REDONDEO_100` rounds to 0, and the fallback publishes it
as a success. -/
theorem fallbackCero_eval :
    (resolver_precio dbFallbackCero 2 "PTS").ok = true ∧
    (resolver_precio dbFallbackCero 2 "PTS").precio_bruto = some 0 ∧
    (resolver_precio dbFallbackCero 2 "PTS").regla =
      some ⟨none, "COSTO_MAS_MARKUP"⟩ ∧
    (resolver_precio dbFallbackCero 2 "PTS").pvp_ref = none := by
  have hU : pyUpper "REDONDEO_100" = "REDONDEO_100" := by decide
  have hprod : _get_producto_base dbFallbackCero 2 =
      some ⟨2, none, none, none, some 10, none, none⟩ := by
    norm_num +decide [_get_producto_base, dbFallbackCero, List.find?]
  have hcosto : _get_costo_base dbFallbackCero 2 = some 10 := by
    norm_num [_get_costo_base, hprod, Option.orElse]
  have hpol : politicasActivas dbFallbackCero "PTS" = [] := by
    norm_num +decide [politicasActivas, dbFallbackCero, sortLE, List.filter]
  have hparam : _get_param dbFallbackCero "pts_redondeo" (some "EXACTO") =
      some "REDONDEO_100" := by
    norm_num +decide [_get_param, dbFallbackCero, List.find?]
  have hred : _aplicar_redondeo "REDONDEO_100" (54/5) = 0 := by
    rw [_aplicar_redondeo_r100, if_neg (by norm_num)]
    have h54 : ((54:ℚ)/5) / 100 = 27/250 := by norm_num
    rw [h54]
    have hfl : ⌊(27/250 : ℚ)⌋ = 0 := by
      rw [Int.floor_eq_zero_iff]
      constructor <;> norm_num
    norm_num [pyRound, hfl]
  refine ⟨?_, ?_, ?_, ?_⟩ <;>
    norm_num +decide [resolver_precio, hprod, hcosto, hpol, hparam, hU, hred,
      resolverPoliticas, margen_fallback_cero, Option.bind]

/-- Evaluation of the plain cost-plus-markup store: cost 1000, markup 20 %,
`EXACTO` rounding resolve to 1200 through rule 7. -/
theorem markup_eval :
    (resolver_precio dbMarkup 3 "ANY").regla =
      some ⟨some 7, "COSTO_MAS_MARKUP"⟩ ∧
    (resolver_precio dbMarkup 3 "ANY").precio_bruto = some 1200 := by
  have hU : pyUpper "COSTO_MAS_MARKUP" = "COSTO_MAS_MARKUP" := by decide
  constructor <;>
    norm_num +decide [resolver_precio, dbMarkup, reglaMarkup20, _get_costo_base,
      _get_producto_base, pvpRefActual, politicasActivas, sortLE, insertLE,
      resolverPoliticas, reglasDePolitica, resolverReglas, redondeoDePolitica,
      reglaMatchesTipo, reglaMatchesRango, evalRegla, calcRegla, guardRegla,
      _aplicar_redondeo, pyRound, hU, _get_param, List.find?, List.filter]

/-- C9: every resolution returned from a policy rule carries a strictly
positive gross price (a rule whose rounded result is 0 is skipped), while the
PTS configuration fallback performs no positivity check: with cost base 10,
default margin `"0.08"` and `REDONDEO_100` rounding, `resolver_precio`
returns `ok` with gross price 0. -/
theorem regla_positiva_fallback_sin_chequeo :
    (∀ (db : PreciosDB) (idp : Nat) (canal : String) (rref : ReglaRef) (rid : Nat),
        (resolver_precio db idp canal).regla = some rref → rref.id = some rid →
        ∃ n : ℤ, (resolver_precio db idp canal).precio_bruto = some n ∧ 0 < n) ∧
    (resolver_precio dbFallbackCero 2 "PTS").ok = true ∧
    (resolver_precio dbFallbackCero 2 "PTS").precio_bruto = some 0 := by
  refine ⟨?_, fallbackCero_eval.1, fallbackCero_eval.2.1⟩
  intro db idp canal rref rid hregla hid
  revert hregla
  unfold resolver_precio
  dsimp only
  cases hM : resolverPoliticas db (_get_costo_base db idp)
      ((_get_producto_base db idp).bind fun p => p.id_tipo_medicamento)
      (if canal = "ANY" ∨ canal = "ERP" then pvpRefActual db idp else none)
      (politicasActivas db canal) with
  | some t0 =>
    obtain ⟨pol, red, rg, bf⟩ := t0
    intro _
    exact ⟨bf, rfl, resolverReglas_pos (resolverPoliticas_inner hM)⟩
  | none =>
    intro hregla
    dsimp only at hregla
    by_cases hc : canal = "PTS"
    · rw [if_pos hc] at hregla
      rcases hcos : _get_costo_base db idp with _ | c
      · rw [hcos] at hregla
        simp at hregla
      · rw [hcos] at hregla
        rcases hmar : _get_pts_margin_for_producto db
            ((_get_producto_base db idp).bind fun p => p.id_tipo_medicamento)
            ((_get_producto_base db idp).bind fun p => p.categoria_id)
            ((_get_producto_base db idp).bind fun p => p.subcategoria_id) with _ | m
        · rw [hmar] at hregla
          simp at hregla
        · rw [hmar] at hregla
          dsimp only at hregla
          rw [Option.some_inj] at hregla
          rw [← hregla] at hid
          simp at hid
    · rw [if_neg hc] at hregla
      simp at hregla

theorem regla_positiva_fallback_sin_chequeo_witness :
    (∃ n : ℤ, (resolver_precio dbMarkup 3 "ANY").precio_bruto = some n ∧ 0 < n) ∧
    (resolver_precio dbFallbackCero 2 "PTS").precio_bruto = some 0 :=
  ⟨regla_positiva_fallback_sin_chequeo.1 dbMarkup 3 "ANY"
      ⟨some 7, "COSTO_MAS_MARKUP"⟩ 7 markup_eval.1 rfl,
    regla_positiva_fallback_sin_chequeo.2.2⟩

/-- C10: on the `PTS` channel the reference retail price is never fetched
(the returned `pvp_ref` is always null), a `DESCUENTO_SOBRE_PVP` rule can
never be the winning rule, and the `tope_pct` max-markup-over-reference
guardrail is inert whenever the reference price is absent — as it always is
on `PTS`. -/
theorem canal_pts_sin_referencia :
    ∀ (db : PreciosDB) (idp : Nat),
      (resolver_precio db idp "PTS").pvp_ref = none ∧
      (∀ rref : ReglaRef, (resolver_precio db idp "PTS").regla = some rref →
        rref.tipo ≠ "DESCUENTO_SOBRE_PVP") ∧
      (∀ (rg : Regla) (costo bc : Option ℚ),
        guardRegla rg costo none bc =
          guardRegla { rg with tope_pct := none } costo none bc) := by
  intro db idp
  refine ⟨?_, ?_, ?_⟩
  · unfold resolver_precio
    dsimp only
    rw [if_neg (by decide : ¬ (("PTS":String) = "ANY" ∨ ("PTS":String) = "ERP"))]
    cases hM : resolverPoliticas db (_get_costo_base db idp)
        ((_get_producto_base db idp).bind fun p => p.id_tipo_medicamento) none
        (politicasActivas db "PTS") with
    | some t0 =>
      obtain ⟨pol, red, rg, bf⟩ := t0
      rfl
    | none =>
      dsimp only
      rw [if_pos rfl]
      rcases _get_costo_base db idp with _ | c
      · rfl
      · rcases _get_pts_margin_for_producto db
            ((_get_producto_base db idp).bind fun p => p.id_tipo_medicamento)
            ((_get_producto_base db idp).bind fun p => p.categoria_id)
            ((_get_producto_base db idp).bind fun p => p.subcategoria_id) with _ | m
        · rfl
        · rfl
  · intro rref hregla
    revert hregla
    unfold resolver_precio
    dsimp only
    rw [if_neg (by decide : ¬ (("PTS":String) = "ANY" ∨ ("PTS":String) = "ERP"))]
    cases hM : resolverPoliticas db (_get_costo_base db idp)
        ((_get_producto_base db idp).bind fun p => p.id_tipo_medicamento) none
        (politicasActivas db "PTS") with
    | some t0 =>
      obtain ⟨pol, red, rg, bf⟩ := t0
      intro hregla
      dsimp only at hregla
      rw [Option.some_inj] at hregla
      rw [← hregla]
      exact resolverReglas_winner_no_pvp (resolverPoliticas_inner hM)
    | none =>
      intro hregla
      dsimp only at hregla
      rw [if_pos rfl] at hregla
      rcases hcos : _get_costo_base db idp with _ | c
      · rw [hcos] at hregla
        simp at hregla
      · rw [hcos] at hregla
        rcases hmar : _get_pts_margin_for_producto db
            ((_get_producto_base db idp).bind fun p => p.id_tipo_medicamento)
            ((_get_producto_base db idp).bind fun p => p.categoria_id)
            ((_get_producto_base db idp).bind fun p => p.subcategoria_id) with _ | m
        · rw [hmar] at hregla
          simp at hregla
        · rw [hmar] at hregla
          dsimp only at hregla
          rw [Option.some_inj] at hregla
          rw [← hregla]
          decide
  · intro rg costo bc
    unfold guardRegla
    rcases bc with _ | b0
    · rfl
    · rcases rg.tope_pct with _ | tp <;> rfl

theorem canal_pts_sin_referencia_witness :
    (resolver_precio dbFallbackCero 2 "PTS").pvp_ref = none ∧
    ("COSTO_MAS_MARKUP" : String) ≠ "DESCUENTO_SOBRE_PVP" :=
  ⟨(canal_pts_sin_referencia dbFallbackCero 2).1,
    (canal_pts_sin_referencia dbFallbackCero 2).2.1
      ⟨none, "COSTO_MAS_MARKUP"⟩ fallbackCero_eval.2.2.1⟩

/-! ### `_publicar_precio` (price publication) -/

/-- `IVA_TASA_DEFAULT` from `app/routers/admin_precios.py`. -/
def IVA_TASA_DEFAULT : ℚ := 19

/-- The price table together with the id sequence and a discrete clock for the
SQL `now()`. -/
structure PreciosState where
  rows : List Precio
  nextId : Nat
  now : Nat
  deriving Repr

/-- `SQL_PRECIOS_CERRAR_VIG`: stamp `vigente_hasta = now()` on every in-force
row of the (product, price-list) pair. -/
def cerrarVigentes (st : PreciosState) (id_producto id_lista : Nat) : PreciosState :=
  { st with
    rows := st.rows.map (fun r =>
      if r.id_producto == id_producto && r.id_lista == id_lista &&
          r.vigente_hasta == none
      then { r with vigente_hasta := some st.now }
      else r) }

/-- The row `SQL_PRECIOS_INSERT` creates when the sequence and clock stand at
`st`: fresh id, `vigente_desde` defaulted to `now()`, null `vigente_hasta`. -/
def filaNueva (st : PreciosState) (id_producto id_lista : Nat) (precio_bruto : ℤ)
    (creado_por fuente : String) (iva_tasa : ℚ) : Precio :=
  { id_precio := st.nextId, id_producto := id_producto, id_lista := id_lista,
    precio_bruto := (precio_bruto : ℚ), iva_tasa := iva_tasa, fuente := fuente,
    creado_por := creado_por, vigente_desde := st.now, vigente_hasta := none }

/-- `_publicar_precio(db, id_producto=…, id_lista=…, precio_bruto=…, …)`:
close any in-force row of the pair, then insert the new in-force row;
returns the new row's id. -/
def _publicar_precio (st : PreciosState) (id_producto id_lista : Nat)
    (precio_bruto : ℤ) (creado_por fuente : String) (iva_tasa : ℚ) :
    PreciosState × Nat :=
  let st1 := cerrarVigentes st id_producto id_lista
  let fila := filaNueva st1 id_producto id_lista precio_bruto creado_por fuente iva_tasa
  ({ rows := st1.rows ++ [fila], nextId := st1.nextId + 1, now := st1.now + 1 },
    st1.nextId)

/-- One `publish_price` request. -/
structure Publicacion where
  id_producto : Nat
  id_lista : Nat
  precio_bruto : ℤ
  creado_por : String
  fuente : String
  iva_tasa : ℚ
  deriving Repr

/-- Sequential execution of `_publicar_precio` calls. -/
def runPublicaciones (st : PreciosState) : List Publicacion → PreciosState
  | [] => st
  | c :: rest =>
    runPublicaciones
      (_publicar_precio st c.id_producto c.id_lista c.precio_bruto c.creado_por
        c.fuente c.iva_tasa).1 rest

/-- The in-force (null `vigente_hasta`) rows of a (product, price-list) pair. -/
def vigentesDe (rows : List Precio) (p l : Nat) : List Precio :=
  rows.filter (fun r =>
    r.id_producto == p && r.id_lista == l && r.vigente_hasta == none)

theorem vigentesDe_cerrar (st : PreciosState) (p l : Nat) :
    vigentesDe (cerrarVigentes st p l).rows p l = [] := by
  unfold cerrarVigentes vigentesDe
  dsimp only
  induction st.rows with
  | nil => rfl
  | cons r rest ih =>
    rw [List.map_cons, List.filter_cons]
    by_cases hc : (r.id_producto == p && r.id_lista == l &&
        r.vigente_hasta == none) = true
    · rw [if_pos hc]
      simp only [ih, List.self_eq_append_right]
      simp
    · rw [if_neg hc]
      simp only [List.filter_cons, hc]
      simpa using ih

theorem vigentesDe_cerrar_other {p' l' p l : Nat} (st : PreciosState)
    (hne : ¬(p' = p ∧ l' = l)) :
    vigentesDe (cerrarVigentes st p' l').rows p l = vigentesDe st.rows p l := by
  unfold cerrarVigentes vigentesDe
  dsimp only
  induction st.rows with
  | nil => rfl
  | cons r rest ih =>
    rw [List.map_cons, List.filter_cons, List.filter_cons]
    by_cases hc : (r.id_producto == p' && r.id_lista == l' &&
        r.vigente_hasta == none) = true
    · rw [if_pos hc]
      have hnotpl : (r.id_producto == p && r.id_lista == l &&
          r.vigente_hasta == none) = false := by
        simp only [Bool.and_eq_true, beq_iff_eq] at hc
        by_contra hcon
        simp only [Bool.not_eq_false, Bool.and_eq_true, beq_iff_eq] at hcon
        exact hne ⟨by rw [← hc.1.1, hcon.1.1], by rw [← hc.1.2, hcon.1.2]⟩
      have hclosed : (({ r with vigente_hasta := some st.now } : Precio).id_producto == p &&
          ({ r with vigente_hasta := some st.now } : Precio).id_lista == l &&
          ({ r with vigente_hasta := some st.now } : Precio).vigente_hasta == none) = false := by
        simp
      rw [hclosed, hnotpl]
      exact ih
    · rw [if_neg hc]
      by_cases hd : (r.id_producto == p && r.id_lista == l &&
          r.vigente_hasta == none) = true
      · rw [hd]
        rw [ih]
      · rw [Bool.not_eq_true] at hd
        rw [hd]
        exact ih

theorem vigentesDe_append (xs ys : List Precio) (p l : Nat) :
    vigentesDe (xs ++ ys) p l = vigentesDe xs p l ++ vigentesDe ys p l := by
  unfold vigentesDe
  exact List.filter_append _ _

theorem vigentesDe_publicar_self (st : PreciosState) (p l : Nat) (pr : ℤ)
    (cp f : String) (iva : ℚ) :
    vigentesDe ((_publicar_precio st p l pr cp f iva).1).rows p l =
      [filaNueva (cerrarVigentes st p l) p l pr cp f iva] := by
  unfold _publicar_precio
  dsimp only
  rw [vigentesDe_append, vigentesDe_cerrar]
  unfold vigentesDe filaNueva
  simp

theorem vigentesDe_publicar_other {p' l' p l : Nat} (st : PreciosState)
    (hne : ¬(p' = p ∧ l' = l)) (pr : ℤ) (cp f : String) (iva : ℚ) :
    vigentesDe ((_publicar_precio st p' l' pr cp f iva).1).rows p l =
      vigentesDe st.rows p l := by
  unfold _publicar_precio
  dsimp only
  rw [vigentesDe_append, vigentesDe_cerrar_other st hne]
  have hfila : vigentesDe [filaNueva (cerrarVigentes st p' l') p' l' pr cp f iva] p l = [] := by
    unfold vigentesDe filaNueva
    rw [List.filter_cons]
    have : (((p' : Nat) == p) && ((l' : Nat) == l) && ((none : Option Nat) == none)) = false := by
      by_contra hcon
      simp only [Bool.not_eq_false, Bool.and_eq_true, beq_iff_eq] at hcon
      exact hne ⟨hcon.1.1, hcon.1.2⟩
    simpa using this
  rw [hfila, List.append_nil]

theorem vigentesDe_run_no_pair {p l : Nat} (st : PreciosState)
    {post : List Publicacion}
    (hpost : ∀ d ∈ post, ¬(d.id_producto = p ∧ d.id_lista = l)) :
    vigentesDe (runPublicaciones st post).rows p l = vigentesDe st.rows p l := by
  induction post generalizing st with
  | nil => rfl
  | cons d rest ih =>
    unfold runPublicaciones
    rw [ih _ (fun e he => hpost e (List.mem_cons_of_mem d he)),
      vigentesDe_publicar_other st (hpost d (List.mem_cons_self d rest))]

theorem runPublicaciones_append (st : PreciosState) (xs ys : List Publicacion) :
    runPublicaciones st (xs ++ ys) = runPublicaciones (runPublicaciones st xs) ys := by
  induction xs generalizing st with
  | nil => rfl
  | cons c rest ih =>
    rw [List.cons_append]
    simp only [runPublicaciones]
    exact ih _

/-- C3: starting from a price table with at most one in-force row for a
(product, price-list) pair, after any sequence of sequential `_publicar_precio`
calls whose most recent call for that pair is `c`, exactly one row of the pair
is in force, and it is precisely the row inserted by `c` (fresh id, the clock
of that call as `vigente_desde`, null `vigente_hasta`). -/
theorem publicar_precio_unico_vigente (st : PreciosState)
    (pre post : List Publicacion) (c : Publicacion) (p l : Nat)
    (_hinit : (vigentesDe st.rows p l).length ≤ 1)
    (hp : c.id_producto = p) (hl : c.id_lista = l)
    (hpost : ∀ d ∈ post, ¬(d.id_producto = p ∧ d.id_lista = l)) :
    vigentesDe (runPublicaciones st (pre ++ c :: post)).rows p l =
      [filaNueva (cerrarVigentes (runPublicaciones st pre) p l) p l
        c.precio_bruto c.creado_por c.fuente c.iva_tasa] := by
  subst hp
  subst hl
  rw [runPublicaciones_append]
  simp only [runPublicaciones]
  rw [vigentesDe_run_no_pair _ hpost, vigentesDe_publicar_self]

theorem publicar_precio_unico_vigente_witness :
    vigentesDe (runPublicaciones ⟨[], 0, 0⟩
        [⟨1, 2, 100, "admin", "admin", 19⟩]).rows 1 2 =
      [filaNueva (cerrarVigentes (runPublicaciones ⟨[], 0, 0⟩ []) 1 2) 1 2
        100 "admin" "admin" 19] := by
  have h := publicar_precio_unico_vigente ⟨[], 0, 0⟩ [] []
    ⟨1, 2, 100, "admin", "admin", 19⟩ 1 2 (by decide) rfl rfl (by simp)
  simpa using h

/-! ### Order state engine (`app/routers/admin_pedidos.py`) -/

/-- A row of `public.pedido_estados` (the status catalog). -/
structure PedidoEstado where
  id_estado : Nat
  codigo : String
  nombre : String
  rol_responsable : String
  orden : Int
  activo : Bool
  es_final : Bool
  deriving Repr, DecidableEq

/-- A row of `public.pedido_estado_transiciones` (a directed edge by ids). -/
structure PedidoTransicion where
  id_transicion : Nat
  origen : Nat
  destino : Nat
  activo : Bool
  deriving Repr, DecidableEq

/-- The slice of a `public.pedidos` row the state engine touches. -/
structure PedidoRow where
  id_pedido : Nat
  numero : String
  estado_codigo : String
  id_cliente : Option Nat
  archivado : Bool
  deriving Repr, DecidableEq

/-- The slice of a `public.clientes` row used for the rejection email. -/
structure Cliente where
  id_cliente : Nat
  nombre : Option String
  email : Option String
  deriving Repr, DecidableEq

/-- A row of `public.usuarios` (actor resolution for `created_by`). -/
structure Usuario where
  id : Nat
  usuario : String
  deriving Repr, DecidableEq

/-- A row of `public.pedido_estado_historial` as inserted by
`admin_pedidos_cambiar_estado`. -/
structure HistRow where
  id_pedido : Nat
  estado_origen : Option Nat
  estado_destino : Nat
  nota : String
  audiencia : String
  destinatario_rol : Option String
  created_by : Option Nat
  deriving Repr, DecidableEq

/-- A row of `public.pedido_notas` as inserted by the handler. -/
structure NotaRow where
  id_pedido : Nat
  texto : String
  audiencia : String
  destinatario_rol : Option String
  autor_nombre : String
  autor_rol : String
  deriving Repr, DecidableEq

/-- The relational store of the order state engine, plus the key-value
settings table (`public.app_parametros`). -/
structure PedidosDB where
  pedidos : List PedidoRow
  pedido_estados : List PedidoEstado
  transiciones : List PedidoTransicion
  usuarios : List Usuario
  clientes : List Cliente
  historial : List HistRow
  notas : List NotaRow
  app_parametros : List (String × String)
  deriving Repr

/-- One entry of the list `_next_states_for` returns. -/
structure NextState where
  codigo : String
  nombre : String
  rol_responsable : String
  deriving Repr, DecidableEq

/-- `_next_states_for(db, estado_actual)` from `app/routers/admin_pedidos.py`:
an absent or empty current code gives no next states; the hard-coded terminal
`RECHAZADO_QF` (compared case-insensitively) gives no next states before any
table is consulted; otherwise the active transition edges whose origin matches
the code case-insensitively and whose destination status is active, ordered by
the destination's display order then code.  (The defensive all-statuses
fallback the code uses when the transition table is unreachable is a
database-failure path and is not modelled.) -/
def _next_states_for (db : PedidosDB) (estado_actual : Option String) :
    List NextState :=
  match estado_actual with
  | none => []
  | some s =>
    if s = "" then []
    else if pyUpper s = "RECHAZADO_QF" then []
    else
      let dests := db.transiciones.filterMap (fun t =>
        if t.activo then
          match db.pedido_estados.find? (fun e => e.id_estado == t.origen),
              db.pedido_estados.find? (fun e => e.id_estado == t.destino) with
          | some orig, some dest =>
            if pyUpper orig.codigo = pyUpper s ∧ dest.activo then some dest
            else none
          | _, _ => none
        else none)
      (sortLE (fun a b => a.orden < b.orden ||
          (a.orden == b.orden && a.codigo ≤ b.codigo)) dests).map
        (fun dest =>
          ⟨dest.codigo, if dest.nombre = "" then dest.codigo else dest.nombre,
            dest.rol_responsable⟩)

/-- The `SELECT estado_codigo FROM pedidos WHERE id_pedido = :id` scalar read:
null when the order does not exist. -/
def estadoActualDe (db : PedidosDB) (id_pedido : Nat) : Option String :=
  (db.pedidos.find? (fun p => p.id_pedido == id_pedido)).map (·.estado_codigo)

/-- C2: for an order whose current status code is the hard-coded terminal
`RECHAZADO_QF` in any letter case, `_next_states_for` returns the empty list
whatever the transition table holds, and it also does so for an absent/null
current status. -/
theorem next_states_rechazado_qf_vacio (db : PedidosDB) (s : String)
    (h : pyUpper s = "RECHAZADO_QF") :
    _next_states_for db (some s) = [] ∧ _next_states_for db none = [] := by
  constructor
  · unfold _next_states_for
    dsimp only
    by_cases hs : s = ""
    · rw [if_pos hs]
    · rw [if_neg hs, if_pos h]
  · rfl

theorem next_states_rechazado_qf_vacio_witness :
    _next_states_for
        ⟨[], [⟨1, "RECHAZADO_QF", "Rechazado QF", "QF", 0, true, false⟩,
          ⟨2, "NUEVO", "Nuevo", "QF", 0, true, false⟩],
          [⟨1, 1, 2, true⟩], [], [], [], [], []⟩
        (some "rechazado_qf") = [] :=
  (next_states_rechazado_qf_vacio _ "rechazado_qf" (by decide)).1

/-! ### `admin_pedidos_cambiar_estado` -/

/-- Outcome constructors mirroring the handler's JSON responses. -/
inductive CEResult where
  | ok (nuevo_estado : String)
  | errEstadoInvalido
  | errTransicionNoPermitida
  | errDestinoNoExiste
  deriving Repr, DecidableEq

/-- One SQL statement or outbound call issued inside the handler, in program
order; `commit` is the transaction commit. -/
inductive DBEvent where
  | updateEstado (id_pedido : Nat) (estado : String)
  | insertHistorial (h : HistRow)
  | insertNota (n : NotaRow)
  | updateArchivado (id_pedido : Nat)
  | sendEmail (destinatario : String) (resultado : Bool)
  | commit
  deriving Repr, DecidableEq

/-- The identity of the caller, as read from the session
(`admin_user.get("usuario")`, `admin_user.get("nombre")`). -/
structure ActorInfo where
  usuario : Option String
  nombre : Option String
  deriving Repr, DecidableEq

/-- Result of one `admin_pedidos_cambiar_estado` call: the store after it, the
JSON outcome, and the trace of statements it issued. -/
structure CEOutcome where
  db : PedidosDB
  result : CEResult
  events : List DBEvent
  deriving Repr

/-- Python's `str.strip()` (whitespace at both ends removed). -/
def pyStrip (s : String) : String :=
  String.mk (((s.data.dropWhile Char.isWhitespace).reverse.dropWhile
    Char.isWhitespace).reverse)

/-- The handler's `_clean`: strip, and turn empty/absent into null. -/
def _clean (s : Option String) : Option String :=
  match s with
  | some t => if pyStrip t = "" then none else some (pyStrip t)
  | none => none

/-- Python `x or y` on a nullable string: an absent or empty `x` yields `y`. -/
def pyOrStr (a : Option String) (b : String) : String :=
  match a with
  | some s => if s = "" then b else s
  | none => b

/-- The write phase of `admin_pedidos_cambiar_estado` (the body of its `try`,
source steps 1–4): update the order's status, insert the history row, insert
the internal/customer/role notes, run the `RECHAZADO_QF` post-actions
(archival, best-effort customer email, customer note), then commit.
`emailOk` is the boolean `send_email` returns; the handler only logs it. -/
def cambiarEstadoEscritura (db : PedidosDB) (id_pedido : Nat)
    (nuevo_estado : String) (nota_cliente nota_rol destinatario_rol : Option String)
    (admin_user : ActorInfo) (emailOk : Bool) (id_estado_destino : Nat)
    (estado_actual : Option String) : CEOutcome :=
  let id_estado_origen : Option Nat :=
    match estado_actual with
    | some s =>
      if s ≠ "" then
        (db.pedido_estados.find? (fun e => e.codigo == s)).map (·.id_estado)
      else none
    | none => none
  let created_by : Option Nat :=
    admin_user.usuario.bind (fun u =>
      (db.usuarios.find? (fun x => x.usuario == u)).map (·.id))
  let estadoStr := pyOrStr estado_actual "—"
  let nota_hist := pyOrStr (nota_rol.orElse fun _ => nota_cliente)
    ("Cambio de estado de " ++ estadoStr ++ " a " ++ nuevo_estado)
  let autor_nombre := pyOrStr admin_user.nombre (pyOrStr admin_user.usuario "admin")
  let pedidos1 := db.pedidos.map (fun p =>
    if p.id_pedido == id_pedido then { p with estado_codigo := nuevo_estado } else p)
  let hist : HistRow :=
    ⟨id_pedido, id_estado_origen, id_estado_destino, nota_hist, "NEXT_ROLE",
      destinatario_rol, created_by⟩
  let notas1 : List NotaRow :=
    [⟨id_pedido, "Estado cambiado de " ++ estadoStr ++ " a " ++ nuevo_estado,
      "interno", none, autor_nombre, "admin"⟩] ++
    (match nota_cliente with
     | some nc => [⟨id_pedido, nc, "cliente", none, autor_nombre, "admin"⟩]
     | none => []) ++
    (if nota_rol.isSome || destinatario_rol.isSome then
      [⟨id_pedido,
        pyOrStr nota_rol
          (match destinatario_rol with
           | some d => "Instrucciones para " ++ d
           | none => "Instrucciones"),
        "interno", destinatario_rol, autor_nombre, "admin"⟩]
     else [])
  let esRechazo := pyUpper nuevo_estado = "RECHAZADO_QF"
  let pedidos2 :=
    if esRechazo then
      pedidos1.map (fun p =>
        if p.id_pedido == id_pedido then { p with archivado := true } else p)
    else pedidos1
  let email_to : String :=
    pyStrip (((db.pedidos.find? (fun p => p.id_pedido == id_pedido)).bind (fun p =>
      p.id_cliente.bind (fun cid =>
        (db.clientes.find? (fun c => c.id_cliente == cid)).bind (·.email)))).getD "")
  let emailEvents : List DBEvent :=
    if esRechazo ∧ email_to ≠ "" then [.sendEmail email_to emailOk] else []
  let notasRechazo : List NotaRow :=
    if esRechazo then
      [⟨id_pedido,
        "Tu pedido fue rechazado por QF tras la revisión correspondiente. Si tienes dudas, contáctanos.",
        "cliente", none, autor_nombre, "admin"⟩]
    else []
  let eventos : List DBEvent :=
    [.updateEstado id_pedido nuevo_estado, .insertHistorial hist] ++
    notas1.map .insertNota ++
    (if esRechazo then
      [.updateArchivado id_pedido] ++ emailEvents ++ notasRechazo.map .insertNota
     else []) ++
    [.commit]
  { db := { db with
      pedidos := pedidos2,
      historial := db.historial ++ [hist],
      notas := db.notas ++ notas1 ++ notasRechazo },
    result := .ok nuevo_estado,
    events := eventos }

/-- `admin_pedidos_cambiar_estado(id_pedido, nuevo_estado, …)` from
`app/routers/admin_pedidos.py`: clean the optional notes; reject an empty or
over-64-character code; read the order's current status (null when the order
does not exist — the handler has no explicit existence check); skip transition
validation when the computed next-state set is empty, otherwise require
membership; require the destination code to exist in the catalog (a Python
falsy id, absent or 0, fails); then run the write phase. -/
def cambiar_estado (db : PedidosDB) (id_pedido : Nat) (nuevo_estado : String)
    (nota_cliente nota_rol destinatario_rol : Option String)
    (admin_user : ActorInfo) (emailOk : Bool) : CEOutcome :=
  let nota_cliente := _clean nota_cliente
  let nota_rol := _clean nota_rol
  let destinatario_rol := _clean destinatario_rol
  if nuevo_estado = "" ∨ 64 < nuevo_estado.length then
    ⟨db, .errEstadoInvalido, []⟩
  else
    let estado_actual := estadoActualDe db id_pedido
    let allowed_codes := (_next_states_for db estado_actual).map (·.codigo)
    if allowed_codes ≠ [] ∧ nuevo_estado ∉ allowed_codes then
      ⟨db, .errTransicionNoPermitida, []⟩
    else
      match (db.pedido_estados.find? (fun e => e.codigo == nuevo_estado)).map
          (·.id_estado) with
      | none => ⟨db, .errDestinoNoExiste, []⟩
      | some idd =>
        if idd = 0 then ⟨db, .errDestinoNoExiste, []⟩
        else
          cambiarEstadoEscritura db id_pedido nuevo_estado nota_cliente nota_rol
            destinatario_rol admin_user emailOk idd estado_actual

/-- C1: `change_status` succeeds only if the destination code is in
`next_states(current)` or that set is empty; and for a well-formed code, when
the set is non-empty and does not contain the destination, the call fails with
the transition-not-allowed error and the store — in particular the order's
status — is unchanged. -/
theorem cambiar_estado_respeta_transiciones (db : PedidosDB) (id_pedido : Nat)
    (ne : String) (nc nr dr : Option String) (actor : ActorInfo) (emailOk : Bool) :
    (∀ s, (cambiar_estado db id_pedido ne nc nr dr actor emailOk).result = .ok s →
      (_next_states_for db (estadoActualDe db id_pedido)).map (·.codigo) = [] ∨
        ne ∈ (_next_states_for db (estadoActualDe db id_pedido)).map (·.codigo)) ∧
    (ne ≠ "" → ne.length ≤ 64 →
      (_next_states_for db (estadoActualDe db id_pedido)).map (·.codigo) ≠ [] →
      ne ∉ (_next_states_for db (estadoActualDe db id_pedido)).map (·.codigo) →
      (cambiar_estado db id_pedido ne nc nr dr actor emailOk).result =
        .errTransicionNoPermitida ∧
      (cambiar_estado db id_pedido ne nc nr dr actor emailOk).db = db) := by
  constructor
  · intro s hok
    by_cases hmem : (_next_states_for db (estadoActualDe db id_pedido)).map
        (·.codigo) = [] ∨
        ne ∈ (_next_states_for db (estadoActualDe db id_pedido)).map (·.codigo)
    · exact hmem
    · exfalso
      push_neg at hmem
      revert hok
      unfold cambiar_estado
      dsimp only
      split_ifs with h1 h2
      · intro hok
        exact hok
      · intro hok
        exact hok
  · intro hne1 hlen hnonempty hnin
    unfold cambiar_estado
    dsimp only
    rw [if_neg (by
      simp only [not_or]
      exact ⟨hne1, not_lt.mpr hlen⟩)]
    rw [if_pos ⟨hnonempty, hnin⟩]
    exact ⟨rfl, rfl⟩

/-- Store for the disallowed-transition scenario: order 1 sits in `NUEVO`,
whose only outgoing edge leads to `APROBADO_QF`. -/
def dbTransicion : PedidosDB :=
  { pedidos := [⟨1, "#1001", "NUEVO", none, false⟩],
    pedido_estados :=
      [⟨1, "NUEVO", "Nuevo", "QF", 1, true, false⟩,
        ⟨2, "APROBADO_QF", "Aprobado QF", "PREPARACION", 2, true, false⟩,
        ⟨3, "ENTREGADO", "Entregado", "ATENCION", 3, true, false⟩],
    transiciones := [⟨1, 1, 2, true⟩],
    usuarios := [], clientes := [], historial := [], notas := [],
    app_parametros := [] }

theorem cambiar_estado_respeta_transiciones_witness :
    (cambiar_estado dbTransicion 1 "ENTREGADO" none none none ⟨none, none⟩
      true).result = .errTransicionNoPermitida ∧
    (cambiar_estado dbTransicion 1 "ENTREGADO" none none none ⟨none, none⟩
      true).db = dbTransicion :=
  (cambiar_estado_respeta_transiciones dbTransicion 1 "ENTREGADO" none none none
    ⟨none, none⟩ true).2 (by decide) (by decide) (by decide) (by decide)

/-! ### Commit placement of the `RECHAZADO_QF` post-actions -/

def esCommit : DBEvent → Bool
  | .commit => true
  | _ => false

def esArchivado : DBEvent → Bool
  | .updateArchivado _ => true
  | _ => false

/-- The events issued strictly after the first commit of a trace. -/
def despuesDelCommit (evs : List DBEvent) : List DBEvent :=
  (evs.dropWhile (fun e => !esCommit e)).drop 1

/-- The independence of the handler's outcome from the email send result: the
boolean `send_email` returns is only logged. -/
theorem cambiar_estado_email_indep (db : PedidosDB) (id_pedido : Nat)
    (ne : String) (nc nr dr : Option String) (actor : ActorInfo) (e1 e2 : Bool) :
    (cambiar_estado db id_pedido ne nc nr dr actor e1).result =
      (cambiar_estado db id_pedido ne nc nr dr actor e2).result ∧
    (cambiar_estado db id_pedido ne nc nr dr actor e1).db =
      (cambiar_estado db id_pedido ne nc nr dr actor e2).db := by
  unfold cambiar_estado
  dsimp only
  split_ifs with h1 h2
  · exact ⟨rfl, rfl⟩
  · exact ⟨rfl, rfl⟩
  · rcases hfind : (db.pedido_estados.find? (fun e => e.codigo == ne)).map
        (·.id_estado) with _ | idd
    · rw [hfind]
      exact ⟨rfl, rfl⟩
    · rw [hfind]
      dsimp only
      split_ifs with h3
      · exact ⟨rfl, rfl⟩
      · exact ⟨rfl, rfl⟩

/-- On success with a `RECHAZADO_QF` destination, the write phase's trace is a
commit-free prefix holding the archival update, followed by the single final
commit. -/
theorem escritura_rechazo_eventos (db : PedidosDB) (id_pedido : Nat)
    (ne : String) (nc nr dr : Option String) (actor : ActorInfo) (emailOk : Bool)
    (idd : Nat) (ea : Option String) (hre : pyUpper ne = "RECHAZADO_QF") :
    ∃ A, (cambiarEstadoEscritura db id_pedido ne nc nr dr actor emailOk idd
        ea).events = A ++ [DBEvent.commit] ∧
      (∀ a ∈ A, esCommit a = false) ∧ DBEvent.updateArchivado id_pedido ∈ A := by
  unfold cambiarEstadoEscritura
  dsimp only
  simp only [hre, eq_self_iff_true, if_true]
  refine ⟨_, by rw [List.append_assoc, List.append_assoc], ?_, ?_⟩
  · intro a ha
    cases a <;> try rfl
    exfalso
    simp only [List.mem_append, List.mem_cons, List.mem_map,
      List.not_mem_nil] at ha
    split_ifs at ha <;> simp_all
  · simp

/-- C4 (amended): on a successful transition into `RECHAZADO_QF`, the archival
and customer-notification steps are issued inside the same unit of work,
before its single final commit — not as separately committed operations after
it — each individually exception-guarded, so the email outcome cannot change
the handler's result or the stored data. -/
theorem rechazo_post_acciones_antes_del_commit (db : PedidosDB)
    (id_pedido : Nat) (ne : String) (nc nr dr : Option String)
    (actor : ActorInfo) (emailOk : Bool) (s : String)
    (hok : (cambiar_estado db id_pedido ne nc nr dr actor emailOk).result = .ok s)
    (hre : pyUpper ne = "RECHAZADO_QF") :
    (∃ A, (cambiar_estado db id_pedido ne nc nr dr actor emailOk).events =
        A ++ [DBEvent.commit] ∧
      (∀ a ∈ A, esCommit a = false) ∧ DBEvent.updateArchivado id_pedido ∈ A) ∧
    (cambiar_estado db id_pedido ne nc nr dr actor true).result =
      (cambiar_estado db id_pedido ne nc nr dr actor false).result ∧
    (cambiar_estado db id_pedido ne nc nr dr actor true).db =
      (cambiar_estado db id_pedido ne nc nr dr actor false).db := by
  refine ⟨?_, cambiar_estado_email_indep db id_pedido ne nc nr dr actor true false⟩
  revert hok
  unfold cambiar_estado
  dsimp only
  split_ifs with h1 h2
  · intro hok
    simp at hok
  · intro hok
    simp at hok
  · rcases hfind : (db.pedido_estados.find? (fun e => e.codigo == ne)).map
        (·.id_estado) with _ | idd
    · rw [hfind]
      intro hok
      simp at hok
    · rw [hfind]
      dsimp only
      split_ifs with h3
      · intro hok
        simp at hok
      · intro _
        exact escritura_rechazo_eventos db id_pedido ne (_clean nc) (_clean nr)
          (_clean dr) actor emailOk idd (estadoActualDe db id_pedido) hre

/-- Store for a successful `NUEVO → RECHAZADO_QF` rejection with a customer
email on file. -/
def dbRechazo : PedidosDB :=
  { pedidos := [⟨1, "#1001", "NUEVO", some 5, false⟩],
    pedido_estados :=
      [⟨1, "NUEVO", "Nuevo", "QF", 1, true, false⟩,
        ⟨2, "RECHAZADO_QF", "Rechazado QF", "QF", 2, true, false⟩],
    transiciones := [⟨1, 1, 2, true⟩],
    usuarios := [⟨9, "qf1"⟩],
    clientes := [⟨5, some "Ana", some "ana@correo.cl"⟩],
    historial := [], notas := [], app_parametros := [] }

/-- C4, counterexample: in a successful concrete `RECHAZADO_QF` transition the
handler issues exactly one commit, the archival update occurs, and nothing —
in particular no archival — is issued after that commit: the post-actions run
before the single final commit, not as separately committed operations after
it. -/
theorem rechazo_commit_final_counterexample :
    (cambiar_estado dbRechazo 1 "RECHAZADO_QF" none none none
      ⟨some "qf1", some "QF Uno"⟩ true).result = .ok "RECHAZADO_QF" ∧
    (cambiar_estado dbRechazo 1 "RECHAZADO_QF" none none none
      ⟨some "qf1", some "QF Uno"⟩ true).events.any esArchivado = true ∧
    (cambiar_estado dbRechazo 1 "RECHAZADO_QF" none none none
      ⟨some "qf1", some "QF Uno"⟩ true).events.countP esCommit = 1 ∧
    despuesDelCommit (cambiar_estado dbRechazo 1 "RECHAZADO_QF" none none none
      ⟨some "qf1", some "QF Uno"⟩ true).events = [] := by
  decide

theorem rechazo_post_acciones_antes_del_commit_witness :
    (∃ A, (cambiar_estado dbRechazo 1 "RECHAZADO_QF" none none none
        ⟨some "qf1", some "QF Uno"⟩ true).events = A ++ [DBEvent.commit] ∧
      (∀ a ∈ A, esCommit a = false) ∧ DBEvent.updateArchivado 1 ∈ A) ∧
    (cambiar_estado dbRechazo 1 "RECHAZADO_QF" none none none
      ⟨some "qf1", some "QF Uno"⟩ true).result =
      (cambiar_estado dbRechazo 1 "RECHAZADO_QF" none none none
        ⟨some "qf1", some "QF Uno"⟩ false).result ∧
    (cambiar_estado dbRechazo 1 "RECHAZADO_QF" none none none
      ⟨some "qf1", some "QF Uno"⟩ true).db =
      (cambiar_estado dbRechazo 1 "RECHAZADO_QF" none none none
        ⟨some "qf1", some "QF Uno"⟩ false).db :=
  rechazo_post_acciones_antes_del_commit dbRechazo 1 "RECHAZADO_QF" none none
    none ⟨some "qf1", some "QF Uno"⟩ true "RECHAZADO_QF" (by decide) (by decide)

/-! ### Missing order-existence check -/

theorem map_update_id {l : List PedidoRow} {idp : Nat}
    (h : ∀ p ∈ l, p.id_pedido ≠ idp) (f : PedidoRow → PedidoRow) :
    l.map (fun p => if p.id_pedido == idp then f p else p) = l := by
  induction l with
  | nil => rfl
  | cons p rest ih =>
    rw [List.map_cons,
      if_neg (by simp [h p (List.mem_cons_self p rest)]),
      ih (fun q hq => h q (List.mem_cons_of_mem p hq))]

theorem escritura_pedidos_no_match {db : PedidosDB} {idp : Nat}
    (hno : ∀ p ∈ db.pedidos, p.id_pedido ≠ idp) (ne : String)
    (nc nr dr : Option String) (actor : ActorInfo) (emailOk : Bool) (idd : Nat)
    (ea : Option String) :
    (cambiarEstadoEscritura db idp ne nc nr dr actor emailOk idd ea).db.pedidos =
      db.pedidos := by
  unfold cambiarEstadoEscritura
  dsimp only
  split_ifs with h1
  · rw [map_update_id hno, map_update_id hno]
  · rw [map_update_id hno]

theorem escritura_historial_append (db : PedidosDB) (idp : Nat) (ne : String)
    (nc nr dr : Option String) (actor : ActorInfo) (emailOk : Bool) (idd : Nat)
    (ea : Option String) :
    ∃ h, (cambiarEstadoEscritura db idp ne nc nr dr actor emailOk idd
        ea).db.historial = db.historial ++ [h] ∧ h.id_pedido = idp := by
  unfold cambiarEstadoEscritura
  dsimp only
  exact ⟨_, rfl, rfl⟩

/-- C5 (amended): `change_status` performs no order-existence check.  With an
order id matching no row and a well-formed destination code, the current
status reads as null, transition validation is skipped, and the call is
decided by the destination-catalog check alone: it fails with the
unknown-destination error when the code is not in the catalog, and otherwise
succeeds, updating no order row but appending a history row (with notes) for
the nonexistent order id. -/
theorem cambiar_estado_sin_chequeo_existencia (db : PedidosDB) (idp : Nat)
    (ne : String) (nc nr dr : Option String) (actor : ActorInfo) (emailOk : Bool)
    (hno : ∀ p ∈ db.pedidos, p.id_pedido ≠ idp)
    (hne : ne ≠ "") (hlen : ne.length ≤ 64) :
    (db.pedido_estados.find? (fun e => e.codigo == ne) = none →
      (cambiar_estado db idp ne nc nr dr actor emailOk).result =
        .errDestinoNoExiste ∧
      (cambiar_estado db idp ne nc nr dr actor emailOk).db = db) ∧
    (∀ e, db.pedido_estados.find? (fun x => x.codigo == ne) = some e →
      e.id_estado ≠ 0 →
      (cambiar_estado db idp ne nc nr dr actor emailOk).result = .ok ne ∧
      (cambiar_estado db idp ne nc nr dr actor emailOk).db.pedidos =
        db.pedidos ∧
      ∃ h, (cambiar_estado db idp ne nc nr dr actor emailOk).db.historial =
        db.historial ++ [h] ∧ h.id_pedido = idp) := by
  have hEA : estadoActualDe db idp = none := by
    unfold estadoActualDe
    rw [List.find?_eq_none.mpr (by
      intro p hp
      simp [hno p hp])]
    rfl
  constructor
  · intro hfnone
    unfold cambiar_estado
    dsimp only
    rw [if_neg (by
      simp only [not_or]
      exact ⟨hne, not_lt.mpr hlen⟩)]
    rw [hEA]
    rw [if_neg (by simp [_next_states_for])]
    rw [hfnone]
    exact ⟨rfl, rfl⟩
  · intro e hfe hid0
    unfold cambiar_estado
    dsimp only
    rw [if_neg (by
      simp only [not_or]
      exact ⟨hne, not_lt.mpr hlen⟩)]
    rw [hEA]
    rw [if_neg (by simp [_next_states_for])]
    rw [hfe]
    dsimp only [Option.map]
    rw [if_neg hid0]
    refine ⟨rfl, ?_, ?_⟩
    · exact escritura_pedidos_no_match hno ne (_clean nc) (_clean nr) (_clean dr)
        actor emailOk e.id_estado none
    · exact escritura_historial_append db idp ne (_clean nc) (_clean nr)
        (_clean dr) actor emailOk e.id_estado none

/-- Store with a status catalog but no order rows at all. -/
def dbSinPedido : PedidosDB :=
  ⟨[], [⟨1, "NUEVO", "Nuevo", "QF", 1, true, false⟩], [], [], [], [], [], []⟩

/-- C5, counterexample: called with the nonexistent order id 99, the handler
does not produce an order-not-found failure: an uncatalogued destination gives
the unknown-destination error, and a catalogued one succeeds outright,
updating no order but inserting history and notes rows for id 99. -/
theorem sin_chequeo_existencia_counterexample :
    (cambiar_estado dbSinPedido 99 "FANTASMA" none none none ⟨none, none⟩
      true).result = .errDestinoNoExiste ∧
    (cambiar_estado dbSinPedido 99 "NUEVO" none none none ⟨none, none⟩
      true).result = .ok "NUEVO" ∧
    (cambiar_estado dbSinPedido 99 "NUEVO" none none none ⟨none, none⟩
      true).db.pedidos = [] ∧
    (cambiar_estado dbSinPedido 99 "NUEVO" none none none ⟨none, none⟩
      true).db.historial ≠ [] ∧
    (cambiar_estado dbSinPedido 99 "NUEVO" none none none ⟨none, none⟩
      true).db.notas ≠ [] := by
  decide

theorem cambiar_estado_sin_chequeo_existencia_witness :
    (cambiar_estado dbSinPedido 99 "NUEVO" none none none ⟨none, none⟩
      true).result = .ok "NUEVO" ∧
    (cambiar_estado dbSinPedido 99 "NUEVO" none none none ⟨none, none⟩
      true).db.pedidos = dbSinPedido.pedidos ∧
    ∃ h, (cambiar_estado dbSinPedido 99 "NUEVO" none none none ⟨none, none⟩
      true).db.historial = dbSinPedido.historial ++ [h] ∧ h.id_pedido = 99 :=
  (cambiar_estado_sin_chequeo_existencia dbSinPedido 99 "NUEVO" none none none
      ⟨none, none⟩ true (by simp [dbSinPedido]) (by decide) (by decide)).2
    ⟨1, "NUEVO", "Nuevo", "QF", 1, true, false⟩ (by decide) (by decide)

/-! ### Initial status of a newly created order -/

/-- The "Estado inicial" step of `admin_pedidos_new_submit`
(`app/routers/admin_pedidos.py`): probe the status catalog for a row with
code `pendiente_pago`; use it when present, else the literal `NUEVO`. -/
def estado_inicial_nuevo_pedido (db : PedidosDB) : String :=
  if db.pedido_estados.any (fun e => e.codigo == "pendiente_pago")
  then "pendiente_pago" else "NUEVO"

/-- The initial status as the specification describes it, for comparison: the
`pedido.estado_inicial` key-value parameter, defaulting to the literal
`NUEVO` when unset (this is what `estados_list` in
`app/routers/admin_pedido_estados.py` displays, but not what order creation
uses). -/
def estado_inicial_segun_spec (db : PedidosDB) : String :=
  ((db.app_parametros.find? (fun kv => kv.1 == "pedido.estado_inicial")).map
    (·.2)).getD "NUEVO"

/-- The slice of the order `admin_pedidos_new_submit` inserts that the status
claims concern: the new row carries the computed initial status. -/
def nuevo_pedido (db : PedidosDB) (id_cliente : Option Nat) (numero : String) :
    PedidoRow :=
  { id_pedido := db.pedidos.length + 1, numero := numero,
    estado_codigo := estado_inicial_nuevo_pedido db, id_cliente := id_cliente,
    archivado := false }

/-- Catalog containing `pendiente_pago`, settings table with
`pedido.estado_inicial` set to `EN_REVISION`. -/
def dbInicialParam : PedidosDB :=
  ⟨[], [⟨1, "pendiente_pago", "Pendiente de pago", "ADMIN", 0, true, false⟩],
    [], [], [], [], [], [("pedido.estado_inicial", "EN_REVISION")]⟩

/-- Catalog containing `pendiente_pago`, settings table empty. -/
def dbInicialSinParam : PedidosDB :=
  ⟨[], [⟨1, "pendiente_pago", "Pendiente de pago", "ADMIN", 0, true, false⟩],
    [], [], [], [], [], []⟩

/-- C6, counterexample: order creation assigns `pendiente_pago` when that code
exists in the status catalog, both when the `pedido.estado_inicial` parameter
is set to another value and when it is unset — so the assigned initial status
is neither the parameter's value nor `NUEVO` on unset, and it does depend on
something other than the parameter. -/
theorem estado_inicial_counterexample :
    (nuevo_pedido dbInicialParam none "#1").estado_codigo = "pendiente_pago" ∧
    estado_inicial_segun_spec dbInicialParam = "EN_REVISION" ∧
    (nuevo_pedido dbInicialParam none "#1").estado_codigo ≠
      estado_inicial_segun_spec dbInicialParam ∧
    (nuevo_pedido dbInicialSinParam none "#1").estado_codigo = "pendiente_pago" ∧
    estado_inicial_segun_spec dbInicialSinParam = "NUEVO" ∧
    (nuevo_pedido dbInicialSinParam none "#1").estado_codigo ≠
      estado_inicial_segun_spec dbInicialSinParam := by
  decide

/-- C6 (amended): the initial status assigned to a newly created order is
`pendiente_pago` exactly when the status catalog contains a row with that
code, and the literal `NUEVO` otherwise; it never reads the
`pedido.estado_inicial` parameter — the assigned status is invariant under any
change of the key-value settings table and depends only on the catalog
membership of `pendiente_pago`. -/
theorem estado_inicial_desde_catalogo (db : PedidosDB)
    (params : List (String × String)) (id_cliente : Option Nat) (numero : String) :
    ((nuevo_pedido db id_cliente numero).estado_codigo = "pendiente_pago" ↔
      ∃ e ∈ db.pedido_estados, e.codigo = "pendiente_pago") ∧
    ((nuevo_pedido db id_cliente numero).estado_codigo = "pendiente_pago" ∨
      (nuevo_pedido db id_cliente numero).estado_codigo = "NUEVO") ∧
    (nuevo_pedido { db with app_parametros := params } id_cliente
        numero).estado_codigo =
      (nuevo_pedido db id_cliente numero).estado_codigo := by
  refine ⟨?_, ?_, rfl⟩
  · unfold nuevo_pedido estado_inicial_nuevo_pedido
    dsimp only
    constructor
    · intro h
      by_cases hc : db.pedido_estados.any (fun e => e.codigo == "pendiente_pago")
      · simpa using hc
      · rw [if_neg hc] at h
        exact absurd h (by decide)
    · intro h
      rw [if_pos (by simpa using h)]
  · unfold nuevo_pedido estado_inicial_nuevo_pedido
    dsimp only
    split_ifs with hc
    · exact Or.inl rfl
    · exact Or.inr rfl

theorem estado_inicial_desde_catalogo_witness :
    (nuevo_pedido dbInicialParam none "#1").estado_codigo = "pendiente_pago" :=
  (estado_inicial_desde_catalogo dbInicialParam [] none "#1").1.mpr
    ⟨⟨1, "pendiente_pago", "Pendiente de pago", "ADMIN", 0, true, false⟩,
      by simp [dbInicialParam], rfl⟩

end Farmactiva
